import Mathlib

/-!
Verification of `src/code/db_setup.py`, a one-shot database bootstrap script.

The script is embedded shallowly.  All interaction with the outside world
(environment variables, the file system, the PostgreSQL server) is captured by
a `World` record, and every externally visible action of the script is recorded
in a trace of `Event`s.  Python exceptions become `Except Err` results:

  * `get_db_connection` reads `DATABASE_URL` (Python truthiness: `None` and the
    empty string both fail), raises `ValueError` when it is falsy, otherwise
    calls `psycopg2.connect` (the `Event.connect` entry in the trace);
  * `execute_sql_file` reads the file, opens a cursor, executes the whole text,
    commits on success, rolls back and re-raises the bare database exception on
    failure, and closes the cursor in a `finally` block;
  * `runAll` is the `for sql_filename in sql_files` loop of `main`, checking
    existence of each file before executing it and raising `FileNotFoundError`
    for a missing file;
  * `mainRun` is the body of `main`'s `try` block (connect, run all files,
    `conn.close()` on the success path only), and `main` is the surrounding
    `try/except` returning exit code 0 or 1.

File paths are modelled by their file names (the directory prefix `sql_dir` is
a run-wide constant in the script and is dropped).
-/

namespace DbSetup

/-- External state the script interacts with: the `DATABASE_URL` environment
variable after `load_dotenv` (`none` = unset), whether `psycopg2.connect`
succeeds, the file system (name to content, `none` = absent), and the database
server's verdict on executing a given SQL text (`none` = success, `some msg` =
the exception raised by `cursor.execute`). -/
structure World where
  databaseUrl : Option String
  connectOk : Bool
  files : String → Option String
  execResult : String → Option String

/-- Externally visible actions of the script, in order of occurrence.  Events
of `execute_sql_file` are tagged with the file being processed. -/
inductive Event where
  | connect : Event
  | fileRead : String → Event
  | cursorOpen : String → Event
  | execute : String → String → Event
  | commit : String → Event
  | rollback : String → Event
  | cursorClose : String → Event
  | connClose : Event
deriving DecidableEq

/-- Exceptions of the script.  `valueError` is the `ValueError` raised by
`get_db_connection`, `connectFailed` a `psycopg2` connection failure,
`fileNotFound` the `FileNotFoundError` raised in `main`, and `dbError` the bare
database exception re-raised by `execute_sql_file` (it carries only the
server's message).  The constructor `executionError` is modelled from the
spec: a wrapped error carrying the originating file name and the underlying
cause; it exists only so that claims about such wrapping can be stated, and
the embedded code never produces it. -/
inductive Err where
  | valueError : String → Err
  | connectFailed : Err
  | fileNotFound : String → Err
  | dbError : String → Err
  | executionError : String → String → Err
deriving DecidableEq

/-- Embedding of `get_db_connection` (db_setup.py lines 15-25): look up
`DATABASE_URL`; `if not database_url` (true for `None` and `""`) raise
`ValueError`; otherwise call `psycopg2.connect`. -/
def get_db_connection (w : World) : Except Err Unit × List Event :=
  match w.databaseUrl with
  | none => (Except.error (Err.valueError "DATABASE_URL not found in .env file"), [])
  | some url =>
    if url = "" then
      (Except.error (Err.valueError "DATABASE_URL not found in .env file"), [])
    else if w.connectOk then
      (Except.ok (), [Event.connect])
    else
      (Except.error Err.connectFailed, [Event.connect])

/-- Embedding of `execute_sql_file` (db_setup.py lines 28-47): `open` and read
the file (raising if it is absent), open a cursor, `cursor.execute` the whole
content, `conn.commit()` on success, `conn.rollback()` and bare `raise` on
failure, `cursor.close()` in the `finally` block on both paths. -/
def execute_sql_file (w : World) (path : String) : Except Err Unit × List Event :=
  match w.files path with
  | none => (Except.error (Err.fileNotFound path), [])
  | some content =>
    match w.execResult content with
    | none =>
      (Except.ok (),
        [Event.fileRead path, Event.cursorOpen path, Event.execute path content,
         Event.commit path, Event.cursorClose path])
    | some msg =>
      (Except.error (Err.dbError msg),
        [Event.fileRead path, Event.cursorOpen path, Event.execute path content,
         Event.rollback path, Event.cursorClose path])

/-- The fixed ordered file list of `main` (db_setup.py lines 62-67). -/
def sql_files : List String :=
  ["schema.sql", "customer.sql", "supplier.sql", "driver.sql"]

/-- Embedding of the `for sql_filename in sql_files` loop of `main`
(db_setup.py lines 71-77): for each file in order, check `sql_file.exists()`;
if present run `execute_sql_file` (propagating its exception), otherwise raise
`FileNotFoundError`. -/
def runAll (w : World) : List String → Except Err Unit × List Event
  | [] => (Except.ok (), [])
  | f :: rest =>
    if (w.files f).isSome then
      match execute_sql_file w f with
      | (Except.ok _, tr) =>
        match runAll w rest with
        | (r, tr2) => (r, tr ++ tr2)
      | (Except.error e, tr) => (Except.error e, tr)
    else
      (Except.error (Err.fileNotFound ("Required SQL file missing: " ++ f)), [])

/-- Embedding of the body of `main`'s `try` block (db_setup.py lines 52-81):
connect, run every file, then `conn.close()` -- the close happens only on the
all-success path, since any exception skips straight to the `except` clause. -/
def mainRun (w : World) : Except Err Unit × List Event :=
  match get_db_connection w with
  | (Except.error e, tr) => (Except.error e, tr)
  | (Except.ok _, tr) =>
    match runAll w sql_files with
    | (Except.ok _, tr2) => (Except.ok (), tr ++ tr2 ++ [Event.connClose])
    | (Except.error e, tr2) => (Except.error e, tr ++ tr2)

/-- Embedding of `main` with its `try/except` (db_setup.py lines 50-87 and the
`exit(main())` at line 91): any exception is caught and mapped to exit code 1,
full success returns 0. -/
def main (w : World) : Nat × List Event :=
  match mainRun w with
  | (Except.ok _, tr) => (0, tr)
  | (Except.error _, tr) => (1, tr)

/-! Observers on traces and results, used to state the claims. -/

/-- The file names carried by `commit` events, in order. -/
def committedFiles (tr : List Event) : List String :=
  tr.filterMap fun e =>
    match e with
    | Event.commit p => some p
    | _ => none

/-- The file names carried by `rollback` events, in order. -/
def rolledBackFiles (tr : List Event) : List String :=
  tr.filterMap fun e =>
    match e with
    | Event.rollback p => some p
    | _ => none

/-- The file names carried by `execute` events, in order. -/
def executedFiles (tr : List Event) : List String :=
  tr.filterMap fun e =>
    match e with
    | Event.execute p _ => some p
    | _ => none

def isExecEvent : Event → Bool
  | Event.execute _ _ => true
  | _ => false

def isCommitEvent : Event → Bool
  | Event.commit _ => true
  | _ => false

def isRollbackEvent : Event → Bool
  | Event.rollback _ => true
  | _ => false

def isCursorOpenEvent : Event → Bool
  | Event.cursorOpen _ => true
  | _ => false

def isCursorCloseEvent : Event → Bool
  | Event.cursorClose _ => true
  | _ => false

/-- Result is a bare database error (the re-raised `psycopg2` exception). -/
def isDbErrResult : Except Err Unit → Bool
  | Except.error (Err.dbError _) => true
  | _ => false

/-- Result is the spec's wrapped `ExecutionError` (file name plus cause). -/
def isWrappedExecResult : Except Err Unit → Bool
  | Except.error (Err.executionError _ _) => true
  | _ => false

/-- File `f` exists and its content executes without a database error. -/
def fileExecOk (w : World) (f : String) : Bool :=
  match w.files f with
  | none => false
  | some c => (w.execResult c).isNone

/-- `DATABASE_URL` is set and non-empty (Python truthiness of the string). -/
def hasValidUrl (w : World) : Bool :=
  match w.databaseUrl with
  | none => false
  | some u => u != ""

/-- Content of file `f` (defaulting to `""` when absent; only used where the
file is known to exist). -/
def contentOf (w : World) (f : String) : String :=
  (w.files f).getD ""

/-- The event trace of a successful `execute_sql_file` call on `f`. -/
def successTrace (w : World) (f : String) : List Event :=
  [Event.fileRead f, Event.cursorOpen f, Event.execute f (contentOf w f),
   Event.commit f, Event.cursorClose f]

/-- The event trace of a failing `execute_sql_file` call on `f`. -/
def failTrace (w : World) (f : String) : List Event :=
  [Event.fileRead f, Event.cursorOpen f, Event.execute f (contentOf w f),
   Event.rollback f, Event.cursorClose f]

/-! Concrete worlds used to evaluate the theorems on closed inputs. -/

/-- World with `DATABASE_URL` unset. -/
def noUrlWorld : World :=
  { databaseUrl := none
    connectOk := true
    files := fun _ => none
    execResult := fun _ => none }

/-- World where every file exists and all SQL executes cleanly. -/
def allOkWorld : World :=
  { databaseUrl := some "postgres://db"
    connectOk := true
    files := fun _ => some "CREATE TABLE t"
    execResult := fun _ => none }

/-- World where `schema.sql` exists but its SQL is rejected by the server. -/
def badSqlWorld : World :=
  { databaseUrl := some "postgres://db"
    connectOk := true
    files := fun f => if f = "schema.sql" then some "CREATE TABLE t" else none
    execResult := fun c => if c = "CREATE TABLE t" then some "syntax error" else none }

/-- World where the first file is fine and the second file's SQL fails. -/
def failMidWorld : World :=
  { databaseUrl := some "postgres://db"
    connectOk := true
    files := fun f =>
      if f = "schema.sql" then some "CREATE TABLE t" else
      if f = "customer.sql" then some "BROKEN SQL" else
      if f = "supplier.sql" then some "CREATE FUNCTION s" else
      if f = "driver.sql" then some "CREATE FUNCTION d" else none
    execResult := fun c => if c = "BROKEN SQL" then some "syntax error" else none }

/-- World where the first two files are fine and the third is absent. -/
def missingFileWorld : World :=
  { databaseUrl := some "postgres://db"
    connectOk := true
    files := fun f =>
      if f = "schema.sql" then some "CREATE TABLE t" else
      if f = "customer.sql" then some "CREATE FUNCTION c" else none
    execResult := fun _ => none }

/-! Basic equations for `execute_sql_file` and the trace observers. -/

theorem execute_sql_file_of_ok (w : World) (f : String) (h : fileExecOk w f = true) :
    execute_sql_file w f = (Except.ok (), successTrace w f) := by
  unfold fileExecOk at h
  cases hf : w.files f with
  | none => rw [hf] at h; simp at h
  | some c =>
    rw [hf] at h
    simp only [Option.isNone_iff_eq_none] at h
    simp [execute_sql_file, successTrace, contentOf, hf, h]

theorem execute_sql_file_of_fail (w : World) (f c m : String)
    (hc : w.files f = some c) (hm : w.execResult c = some m) :
    execute_sql_file w f = (Except.error (Err.dbError m), failTrace w f) := by
  simp [execute_sql_file, failTrace, contentOf, hc, hm]

theorem committedFiles_append (tr tr2 : List Event) :
    committedFiles (tr ++ tr2) = committedFiles tr ++ committedFiles tr2 := by
  unfold committedFiles
  exact List.filterMap_append _ _ _

theorem executedFiles_append (tr tr2 : List Event) :
    executedFiles (tr ++ tr2) = executedFiles tr ++ executedFiles tr2 := by
  unfold executedFiles
  exact List.filterMap_append _ _ _

theorem rolledBackFiles_append (tr tr2 : List Event) :
    rolledBackFiles (tr ++ tr2) = rolledBackFiles tr ++ rolledBackFiles tr2 := by
  unfold rolledBackFiles
  exact List.filterMap_append _ _ _

theorem committedFiles_successTrace (w : World) (f : String) :
    committedFiles (successTrace w f) = [f] := by
  simp [committedFiles, successTrace]

theorem committedFiles_failTrace (w : World) (f : String) :
    committedFiles (failTrace w f) = [] := by
  simp [committedFiles, failTrace]

theorem executedFiles_successTrace (w : World) (f : String) :
    executedFiles (successTrace w f) = [f] := by
  simp [executedFiles, successTrace]

theorem executedFiles_failTrace (w : World) (f : String) :
    executedFiles (failTrace w f) = [f] := by
  simp [executedFiles, failTrace]

theorem rolledBackFiles_successTrace (w : World) (f : String) :
    rolledBackFiles (successTrace w f) = [] := by
  simp [rolledBackFiles, successTrace]

theorem rolledBackFiles_failTrace (w : World) (f : String) :
    rolledBackFiles (failTrace w f) = [f] := by
  simp [rolledBackFiles, failTrace]

/-! Behaviour of the runner loop. -/

/-- When every listed file exists and executes cleanly, the loop succeeds and
its trace is the concatenation of the per-file success traces, in list
order. -/
theorem runAll_all_ok (w : World) (fs : List String)
    (h : ∀ f ∈ fs, fileExecOk w f = true) :
    runAll w fs = (Except.ok (), fs.flatMap (successTrace w)) := by
  induction fs with
  | nil => simp [runAll]
  | cons f rest ih =>
    have hf : fileExecOk w f = true := h f (by simp)
    have hsome : (w.files f).isSome = true := by
      unfold fileExecOk at hf
      cases hfs : w.files f with
      | none => rw [hfs] at hf; exact absurd hf (by simp)
      | some c => simp
    rw [runAll, if_pos hsome, execute_sql_file_of_ok w f hf,
      ih (fun g hg => h g (by simp [hg]))]
    simp

/-- When the files before position `i` (0-indexed) execute cleanly and file `i`
exists but its content is rejected by the server, the loop commits exactly the
first `i` files, rolls back file `i`, stops, and propagates the bare database
error. -/
theorem runAll_fail_at (w : World) (fs : List String) (i : Nat) (c m : String)
    (hi : i < fs.length)
    (hok : ∀ j, j < i → fileExecOk w (fs.getD j "") = true)
    (hc : w.files (fs.getD i "") = some c)
    (hm : w.execResult c = some m) :
    runAll w fs =
      (Except.error (Err.dbError m),
        (fs.take i).flatMap (successTrace w) ++ failTrace w (fs.getD i "")) := by
  induction fs generalizing i with
  | nil => simp at hi
  | cons f rest ih =>
    cases i with
    | zero =>
      simp only [List.getD_cons_zero] at hc ⊢
      have hsome : (w.files f).isSome = true := by rw [hc]; rfl
      rw [runAll, if_pos hsome, execute_sql_file_of_fail w f c m hc hm]
      simp
    | succ j =>
      have h0 : fileExecOk w f = true := by simpa using hok 0 (Nat.succ_pos j)
      have hsome : (w.files f).isSome = true := by
        unfold fileExecOk at h0
        cases hfs : w.files f with
        | none => rw [hfs] at h0; simp at h0
        | some c2 => simp
      have hi' : j < rest.length := by simpa using hi
      have hok' : ∀ k, k < j → fileExecOk w (rest.getD k "") = true := by
        intro k hk
        simpa using hok (k + 1) (Nat.succ_lt_succ hk)
      have hc' : w.files (rest.getD j "") = some c := by simpa using hc
      rw [runAll, if_pos hsome, execute_sql_file_of_ok w f h0, ih j hi' hok' hc']
      simp

/-- When the files before position `i` (0-indexed) execute cleanly and file `i`
is absent, the loop commits exactly the first `i` files, then stops with the
`FileNotFoundError` naming file `i`, having never read or executed it. -/
theorem runAll_missing_at (w : World) (fs : List String) (i : Nat)
    (hi : i < fs.length)
    (hok : ∀ j, j < i → fileExecOk w (fs.getD j "") = true)
    (hmiss : w.files (fs.getD i "") = none) :
    runAll w fs =
      (Except.error (Err.fileNotFound ("Required SQL file missing: " ++ fs.getD i "")),
        (fs.take i).flatMap (successTrace w)) := by
  induction fs generalizing i with
  | nil => simp at hi
  | cons f rest ih =>
    cases i with
    | zero =>
      simp only [List.getD_cons_zero] at hmiss ⊢
      have hnone : (w.files f).isSome = false := by rw [hmiss]; rfl
      rw [runAll, if_neg (by simp [hnone])]
      simp
    | succ j =>
      have h0 : fileExecOk w f = true := by simpa using hok 0 (Nat.succ_pos j)
      have hsome : (w.files f).isSome = true := by
        unfold fileExecOk at h0
        cases hfs : w.files f with
        | none => rw [hfs] at h0; simp at h0
        | some c2 => simp
      have hi' : j < rest.length := by simpa using hi
      have hok' : ∀ k, k < j → fileExecOk w (rest.getD k "") = true := by
        intro k hk
        simpa using hok (k + 1) (Nat.succ_lt_succ hk)
      have hmiss' : w.files (rest.getD j "") = none := by simpa using hmiss
      rw [runAll, if_pos hsome, execute_sql_file_of_ok w f h0, ih j hi' hok' hmiss']
      simp

/-- The loop succeeds exactly when its commit record is the whole file list. -/
theorem runAll_ok_iff_committed (w : World) (fs : List String) :
    ((runAll w fs).1 = Except.ok ()) ↔ committedFiles (runAll w fs).2 = fs := by
  induction fs with
  | nil => simp [runAll, committedFiles]
  | cons f rest ih =>
    by_cases hsome : (w.files f).isSome = true
    · obtain ⟨c, hc⟩ := Option.isSome_iff_exists.mp hsome
      cases hm : w.execResult c with
      | none =>
        have hok : fileExecOk w f = true := by simp [fileExecOk, hc, hm]
        rw [runAll, if_pos hsome, execute_sql_file_of_ok w f hok]
        cases hra : runAll w rest with
        | mk r tr2 =>
          rw [hra] at ih
          simpa [committedFiles_append, committedFiles_successTrace] using ih
      | some m =>
        rw [runAll, if_pos hsome, execute_sql_file_of_fail w f c m hc hm]
        simp [committedFiles_failTrace]
    · rw [runAll, if_neg hsome]
      simp [committedFiles]

/-- The files handed to `cursor.execute` by the loop always form a prefix of
the file list, in order. -/
theorem runAll_executed_take (w : World) (fs : List String) :
    ∃ k, k ≤ fs.length ∧ executedFiles (runAll w fs).2 = fs.take k := by
  induction fs with
  | nil => exact ⟨0, by simp, by simp [runAll, executedFiles]⟩
  | cons f rest ih =>
    by_cases hsome : (w.files f).isSome = true
    · obtain ⟨c, hc⟩ := Option.isSome_iff_exists.mp hsome
      cases hm : w.execResult c with
      | none =>
        have hok : fileExecOk w f = true := by simp [fileExecOk, hc, hm]
        obtain ⟨k, hk, hex⟩ := ih
        refine ⟨k + 1, by simpa using hk, ?_⟩
        rw [runAll, if_pos hsome, execute_sql_file_of_ok w f hok]
        cases hra : runAll w rest with
        | mk r tr2 =>
          rw [hra] at hex
          simpa [executedFiles_append, executedFiles_successTrace] using hex
      | some m =>
        refine ⟨1, by simp, ?_⟩
        rw [runAll, if_pos hsome, execute_sql_file_of_fail w f c m hc hm]
        simp [executedFiles_failTrace]
    · refine ⟨0, by simp, ?_⟩
      rw [runAll, if_neg hsome]
      simp [executedFiles]

/-- The loop never calls `conn.close()`: that call lives in `main`, after the
loop, on the success path only. -/
theorem connClose_not_in_runAll (w : World) (fs : List String) :
    Event.connClose ∉ (runAll w fs).2 := by
  induction fs with
  | nil => simp [runAll]
  | cons f rest ih =>
    by_cases hsome : (w.files f).isSome = true
    · obtain ⟨c, hc⟩ := Option.isSome_iff_exists.mp hsome
      cases hm : w.execResult c with
      | none =>
        have hok : fileExecOk w f = true := by simp [fileExecOk, hc, hm]
        rw [runAll, if_pos hsome, execute_sql_file_of_ok w f hok]
        cases hra : runAll w rest with
        | mk r tr2 =>
          rw [hra] at ih
          simp only [List.mem_append] at ih ⊢
          rintro (hmem | hmem)
          · simp [successTrace] at hmem
          · exact ih hmem
      | some m =>
        rw [runAll, if_pos hsome, execute_sql_file_of_fail w f c m hc hm]
        simp [failTrace]
    · rw [runAll, if_neg hsome]
      simp

theorem committedFiles_flatMap_success (w : World) (l : List String) :
    committedFiles (l.flatMap (successTrace w)) = l := by
  induction l with
  | nil => simp [committedFiles]
  | cons f rest ih =>
    rw [List.flatMap_cons, committedFiles_append, committedFiles_successTrace, ih]
    rfl

theorem executedFiles_flatMap_success (w : World) (l : List String) :
    executedFiles (l.flatMap (successTrace w)) = l := by
  induction l with
  | nil => simp [executedFiles]
  | cons f rest ih =>
    rw [List.flatMap_cons, executedFiles_append, executedFiles_successTrace, ih]
    rfl

theorem rolledBackFiles_flatMap_success (w : World) (l : List String) :
    rolledBackFiles (l.flatMap (successTrace w)) = [] := by
  induction l with
  | nil => simp [rolledBackFiles]
  | cons f rest ih =>
    rw [List.flatMap_cons, rolledBackFiles_append, rolledBackFiles_successTrace, ih]
    rfl

/-- Outcomes of `get_db_connection`: success after a connect attempt, failure
before any connect attempt, or failure during the connect attempt. -/
theorem get_db_connection_cases (w : World) :
    get_db_connection w = (Except.ok (), [Event.connect])
    ∨ (∃ e, get_db_connection w = (Except.error e, []))
    ∨ (∃ e, get_db_connection w = (Except.error e, [Event.connect])) := by
  unfold get_db_connection
  cases w.databaseUrl with
  | none => exact Or.inr (Or.inl ⟨_, rfl⟩)
  | some u =>
    by_cases hu : u = ""
    · exact Or.inr (Or.inl
        ⟨Err.valueError "DATABASE_URL not found in .env file", by simp [hu]⟩)
    · by_cases hc : w.connectOk
      · exact Or.inl (by simp [hu, hc])
      · exact Or.inr (Or.inr ⟨Err.connectFailed, by simp [hu, hc]⟩)

theorem get_db_connection_ok (w : World)
    (hurl : hasValidUrl w = true) (hconn : w.connectOk = true) :
    get_db_connection w = (Except.ok (), [Event.connect]) := by
  unfold hasValidUrl at hurl
  cases hu : w.databaseUrl with
  | none => rw [hu] at hurl; simp at hurl
  | some u =>
    rw [hu] at hurl
    have hne : u ≠ "" := by simpa using hurl
    simp [get_db_connection, hu, hne, hconn]

theorem executedFiles_cons_connect (tr : List Event) :
    executedFiles (Event.connect :: tr) = executedFiles tr := rfl

theorem executedFiles_connect : executedFiles [Event.connect] = [] := rfl

theorem executedFiles_connClose : executedFiles [Event.connClose] = [] := rfl

theorem committedFiles_connect : committedFiles [Event.connect] = [] := rfl

theorem committedFiles_cons_connect (tr : List Event) :
    committedFiles (Event.connect :: tr) = committedFiles tr := rfl

theorem committedFiles_connClose : committedFiles [Event.connClose] = [] := rfl

/-- The whole run succeeds exactly when its commit record is the full declared
file list. -/
theorem mainRun_ok_iff_committed (w : World) :
    ((mainRun w).1 = Except.ok ()) ↔ committedFiles (mainRun w).2 = sql_files := by
  rcases get_db_connection_cases w with hgc | ⟨e, hgc⟩ | ⟨e, hgc⟩
  · unfold mainRun
    rw [hgc]
    have hiff := runAll_ok_iff_committed w sql_files
    cases hra : runAll w sql_files with
    | mk r2 tr2 =>
      rw [hra] at hiff
      cases r2 with
      | ok u =>
        cases u
        simp only [] at hiff
        simp [committedFiles_append, committedFiles_cons_connect, committedFiles_connClose]
        simpa using hiff
      | error e2 =>
        simp only [] at hiff
        simp at hiff
        simp [committedFiles_append, committedFiles_cons_connect, hiff]
  · unfold mainRun
    rw [hgc]
    simp [committedFiles, sql_files]
  · unfold mainRun
    rw [hgc]
    simp [committedFiles, sql_files]

/-- Projections of `main` onto its `mainRun` body. -/
theorem main_fst_zero_iff (w : World) :
    ((main w).1 = 0) ↔ ((mainRun w).1 = Except.ok ()) := by
  unfold main
  cases h : mainRun w with
  | mk r tr =>
    cases r with
    | ok u => cases u; simp
    | error e => simp

theorem main_snd_eq (w : World) : (main w).2 = (mainRun w).2 := by
  unfold main
  cases h : mainRun w with
  | mk r tr => cases r <;> simp

/-! Claim theorems. -/

/-- Claim C1: for every ordered file list, if the file at 0-indexed position
`i` is the first whose SQL execution fails, the runner leaves exactly the
earlier files committed (in order), rolls back file `i`, hands exactly the
files up to and including `i` to `cursor.execute` (so no later file is ever
executed), and propagates the database error. -/
theorem C1_first_sql_failure (w : World) (fs : List String) (i : Nat)
    (hi : i < fs.length)
    (hok : ∀ j, j < i → fileExecOk w (fs.getD j "") = true)
    (hpresent : (w.files (fs.getD i "")).isSome = true)
    (hfail : fileExecOk w (fs.getD i "") = false) :
    committedFiles (runAll w fs).2 = fs.take i ∧
    rolledBackFiles (runAll w fs).2 = [fs.getD i ""] ∧
    executedFiles (runAll w fs).2 = fs.take i ++ [fs.getD i ""] ∧
    isDbErrResult (runAll w fs).1 = true := by
  obtain ⟨c, hc⟩ := Option.isSome_iff_exists.mp hpresent
  cases hmm : w.execResult c with
  | none =>
    exfalso
    have htrue : fileExecOk w (fs.getD i "") = true := by
      unfold fileExecOk
      rw [hc]
      show (w.execResult c).isNone = true
      rw [hmm]
      rfl
    rw [htrue] at hfail
    exact Bool.noConfusion hfail
  | some m =>
  rw [runAll_fail_at w fs i c m hi hok hc hmm]
  refine ⟨?_, ?_, ?_, rfl⟩
  · rw [committedFiles_append, committedFiles_flatMap_success, committedFiles_failTrace,
      List.append_nil]
  · rw [rolledBackFiles_append, rolledBackFiles_flatMap_success, rolledBackFiles_failTrace,
      List.nil_append]
  · rw [executedFiles_append, executedFiles_flatMap_success, executedFiles_failTrace]

/-- Claim C1 witness: with the four declared files where `customer.sql` (index
1) is the first failing one, only `schema.sql` is committed, `customer.sql` is
rolled back, nothing past `customer.sql` is executed, and a database error
propagates. -/
theorem C1_first_sql_failure_witness :
    committedFiles (runAll failMidWorld sql_files).2 = sql_files.take 1 ∧
    rolledBackFiles (runAll failMidWorld sql_files).2 = [sql_files.getD 1 ""] ∧
    executedFiles (runAll failMidWorld sql_files).2 = sql_files.take 1 ++ [sql_files.getD 1 ""] ∧
    isDbErrResult (runAll failMidWorld sql_files).1 = true :=
  C1_first_sql_failure failMidWorld sql_files 1 (by decide) (by decide) (by decide) (by decide)

/-- Claim C2: for every ordered file list, if the file at 0-indexed position
`i` is absent (and the earlier ones execute cleanly), the runner commits and
executes exactly the earlier files and then fails with the missing-file error
naming file `i`; file `i` and later files are never executed. -/
theorem C2_missing_file_aborts (w : World) (fs : List String) (i : Nat)
    (hi : i < fs.length)
    (hok : ∀ j, j < i → fileExecOk w (fs.getD j "") = true)
    (hmiss : w.files (fs.getD i "") = none) :
    (runAll w fs).1 =
      Except.error (Err.fileNotFound ("Required SQL file missing: " ++ fs.getD i "")) ∧
    committedFiles (runAll w fs).2 = fs.take i ∧
    executedFiles (runAll w fs).2 = fs.take i := by
  rw [runAll_missing_at w fs i hi hok hmiss]
  exact ⟨rfl, committedFiles_flatMap_success w _, executedFiles_flatMap_success w _⟩

/-- Claim C2 witness: with `supplier.sql` (index 2) absent, the first two files
are committed and the run fails with the missing-file error for
`supplier.sql`. -/
theorem C2_missing_file_aborts_witness :
    (runAll missingFileWorld sql_files).1 =
      Except.error (Err.fileNotFound ("Required SQL file missing: " ++ sql_files.getD 2 "")) ∧
    committedFiles (runAll missingFileWorld sql_files).2 = sql_files.take 2 ∧
    executedFiles (runAll missingFileWorld sql_files).2 = sql_files.take 2 :=
  C2_missing_file_aborts missingFileWorld sql_files 2 (by decide) (by decide) (by decide)

/-- Claim C4: whenever `DATABASE_URL` is unset or empty, the run fails with the
`ValueError` of `get_db_connection` and `psycopg2.connect` is never called (no
connect event appears in the trace). -/
theorem C4_no_url_no_connect (w : World)
    (h : w.databaseUrl = none ∨ w.databaseUrl = some "") :
    (mainRun w).1 = Except.error (Err.valueError "DATABASE_URL not found in .env file") ∧
    Event.connect ∉ (mainRun w).2 := by
  have hgc : get_db_connection w =
      (Except.error (Err.valueError "DATABASE_URL not found in .env file"), []) := by
    rcases h with h | h <;> simp [get_db_connection, h]
  unfold mainRun
  rw [hgc]
  simp

/-- Claim C4 witness: in the world with `DATABASE_URL` unset, the run fails
with the configuration error and never attempts to connect. -/
theorem C4_no_url_no_connect_witness :
    (mainRun noUrlWorld).1 =
      Except.error (Err.valueError "DATABASE_URL not found in .env file") ∧
    Event.connect ∉ (mainRun noUrlWorld).2 :=
  C4_no_url_no_connect noUrlWorld (Or.inl rfl)

/-- Claim C5: with a valid connection string, a successful connect, and every
declared file present and executing cleanly, `main` exits with 0 and commits
every file, one commit per file, in the declared order. -/
theorem C5_all_success (w : World)
    (hurl : hasValidUrl w = true) (hconn : w.connectOk = true)
    (hfiles : ∀ f ∈ sql_files, fileExecOk w f = true) :
    (main w).1 = 0 ∧ committedFiles (main w).2 = sql_files := by
  have hra := runAll_all_ok w sql_files hfiles
  have hgc := get_db_connection_ok w hurl hconn
  unfold main mainRun
  rw [hgc, hra]
  simp [committedFiles_append, committedFiles_flatMap_success, committedFiles_connect,
    committedFiles_cons_connect, committedFiles_connClose]

/-- Claim C5 witness: in the world where every file is present and clean, the
run exits 0 and commits the four declared files in order. -/
theorem C5_all_success_witness :
    (main allOkWorld).1 = 0 ∧ committedFiles (main allOkWorld).2 = sql_files :=
  C5_all_success allOkWorld (by decide) (by decide) (by decide)

/-- Claim C3: the process exit code is 0 exactly when every declared file was
committed, 1 otherwise, and no other exit code is ever produced. -/
theorem C3_exit_codes (w : World) :
    ((main w).1 = 0 ∨ (main w).1 = 1) ∧
    ((main w).1 = 0 ↔ committedFiles (main w).2 = sql_files) := by
  have hiff := mainRun_ok_iff_committed w
  rw [← main_fst_zero_iff, ← main_snd_eq] at hiff
  refine ⟨?_, hiff⟩
  unfold main
  cases h : mainRun w with
  | mk r tr => cases r <;> simp

/-- Claim C6 (amended): the connection is closed by the script exactly when
the run fully succeeds; on any failing run no `conn.close()` call happens (the
handle is released only by process termination). -/
theorem C6_connClose_iff_success (w : World) :
    Event.connClose ∈ (main w).2 ↔ (main w).1 = 0 := by
  rw [main_snd_eq, main_fst_zero_iff]
  rcases get_db_connection_cases w with hgc | ⟨e, hgc⟩ | ⟨e, hgc⟩
  · unfold mainRun
    rw [hgc]
    have hnc := connClose_not_in_runAll w sql_files
    cases hra : runAll w sql_files with
    | mk r2 tr2 =>
      rw [hra] at hnc
      cases r2 with
      | ok u => cases u; simp
      | error e2 => simp [hnc]
  · unfold mainRun
    rw [hgc]
    simp
  · unfold mainRun
    rw [hgc]
    simp

/-- Claim C6 counterexample: in the world where `schema.sql` fails to execute,
the run fails (exit code 1) and no `conn.close()` call appears in the trace,
so the connection is not closed by the script on every failing run. -/
theorem C6_counterexample :
    (main badSqlWorld).1 = 1 ∧ Event.connClose ∉ (main badSqlWorld).2 := by
  decide

/-- Claim C7 (amended): when file `i` is the first whose SQL fails, the error
propagated out of the runner is the bare database error carrying only the
server's message; it is never the spec's wrapped `ExecutionError` carrying the
file name and cause (the file name appears only in the printed message). -/
theorem C7_bare_error_propagated (w : World) (fs : List String) (i : Nat) (c m : String)
    (hi : i < fs.length)
    (hok : ∀ j, j < i → fileExecOk w (fs.getD j "") = true)
    (hc : w.files (fs.getD i "") = some c)
    (hm : w.execResult c = some m) :
    (runAll w fs).1 = Except.error (Err.dbError m) ∧
    isWrappedExecResult (runAll w fs).1 = false := by
  rw [runAll_fail_at w fs i c m hi hok hc hm]
  exact ⟨rfl, rfl⟩

/-- Claim C7 witness: in the world where `customer.sql` is the first failing
file, the loop propagates the bare database error. -/
theorem C7_bare_error_propagated_witness :
    (runAll failMidWorld sql_files).1 = Except.error (Err.dbError "syntax error") ∧
    isWrappedExecResult (runAll failMidWorld sql_files).1 = false :=
  C7_bare_error_propagated failMidWorld sql_files 1 "BROKEN SQL" "syntax error"
    (by decide) (by decide) (by decide) (by decide)

/-- Claim C7 counterexample: in the world where `schema.sql` fails to execute,
the error reaching the top level is the bare `Err.dbError "syntax error"` (the
re-raised psycopg2 exception), not a wrapped execution error carrying the file
name. -/
theorem C7_counterexample :
    (mainRun badSqlWorld).1 = Except.error (Err.dbError "syntax error") ∧
    isWrappedExecResult (mainRun badSqlWorld).1 = false :=
  ⟨rfl, rfl⟩

/-- Claim C8: the required file set is exactly `schema.sql`, `customer.sql`,
`supplier.sql`, `driver.sql` in that order, fixed as a compile-time constant,
and in every world the files actually executed form a prefix of that list. -/
theorem C8_fixed_file_list :
    sql_files = ["schema.sql", "customer.sql", "supplier.sql", "driver.sql"] ∧
    ∀ w : World, ∃ k, k ≤ sql_files.length ∧
      executedFiles (main w).2 = sql_files.take k := by
  refine ⟨rfl, fun w => ?_⟩
  rw [main_snd_eq]
  rcases get_db_connection_cases w with hgc | ⟨e, hgc⟩ | ⟨e, hgc⟩
  · unfold mainRun
    rw [hgc]
    obtain ⟨k, hk, hex⟩ := runAll_executed_take w sql_files
    cases hra : runAll w sql_files with
    | mk r2 tr2 =>
      rw [hra] at hex
      refine ⟨k, hk, ?_⟩
      cases r2 with
      | ok u =>
        cases u
        simpa [executedFiles_append, executedFiles_cons_connect,
          executedFiles_connClose] using hex
      | error e2 =>
        simpa [executedFiles_append, executedFiles_cons_connect] using hex
  · refine ⟨0, by simp, ?_⟩
    unfold mainRun
    rw [hgc]
    simp [executedFiles]
  · refine ⟨0, by simp, ?_⟩
    unfold mainRun
    rw [hgc]
    simp [executedFiles]

/-- Claim C9: for every processed file, `execute_sql_file` first reads the
file (the trace starts with the read of `f`), submits the whole content `c` in
exactly one `cursor.execute` call, and then performs exactly one of commit or
rollback: commit (with success) when the server accepts the batch, rollback
(with the error propagating) when it rejects it. -/
theorem C9_single_batch (w : World) (f c : String) (h : w.files f = some c) :
    ((execute_sql_file w f).2).head? = some (Event.fileRead f) ∧
    ((execute_sql_file w f).2).countP isExecEvent = 1 ∧
    Event.execute f c ∈ (execute_sql_file w f).2 ∧
    ((execute_sql_file w f).2).countP isCommitEvent +
      ((execute_sql_file w f).2).countP isRollbackEvent = 1 ∧
    (w.execResult c = none →
      (execute_sql_file w f).1 = Except.ok () ∧
        Event.commit f ∈ (execute_sql_file w f).2) ∧
    (∀ m, w.execResult c = some m →
      (execute_sql_file w f).1 = Except.error (Err.dbError m) ∧
        Event.rollback f ∈ (execute_sql_file w f).2) := by
  cases hm : w.execResult c with
  | none =>
    rw [execute_sql_file_of_ok w f (by simp [fileExecOk, h, hm])]
    simp [successTrace, contentOf, h, isExecEvent, isCommitEvent, isRollbackEvent,
      List.countP_cons, List.countP_nil]
  | some m =>
    rw [execute_sql_file_of_fail w f c m h hm]
    simp [failTrace, contentOf, h, isExecEvent, isCommitEvent, isRollbackEvent,
      List.countP_cons, List.countP_nil, hm]

/-- Claim C9 witness: in the all-success world, processing `schema.sql` reads
it first, executes its whole content once, and commits exactly once. -/
theorem C9_single_batch_witness :
    ((execute_sql_file allOkWorld "schema.sql").2).head? =
      some (Event.fileRead "schema.sql") ∧
    ((execute_sql_file allOkWorld "schema.sql").2).countP isExecEvent = 1 ∧
    Event.execute "schema.sql" "CREATE TABLE t" ∈ (execute_sql_file allOkWorld "schema.sql").2 ∧
    ((execute_sql_file allOkWorld "schema.sql").2).countP isCommitEvent +
      ((execute_sql_file allOkWorld "schema.sql").2).countP isRollbackEvent = 1 ∧
    (allOkWorld.execResult "CREATE TABLE t" = none →
      (execute_sql_file allOkWorld "schema.sql").1 = Except.ok () ∧
        Event.commit "schema.sql" ∈ (execute_sql_file allOkWorld "schema.sql").2) ∧
    (∀ m, allOkWorld.execResult "CREATE TABLE t" = some m →
      (execute_sql_file allOkWorld "schema.sql").1 = Except.error (Err.dbError m) ∧
        Event.rollback "schema.sql" ∈ (execute_sql_file allOkWorld "schema.sql").2) :=
  C9_single_batch allOkWorld "schema.sql" "CREATE TABLE t" rfl

/-- Claim C10: whenever `execute_sql_file` reaches the execution step (the
file was opened, so a cursor was created), the cursor is closed as the last
action of the call, on the success path and on the error path alike, and
cursor opens and closes balance. -/
theorem C10_cursor_closed (w : World) (f : String) (h : (w.files f).isSome = true) :
    ((execute_sql_file w f).2).getLast? = some (Event.cursorClose f) ∧
    ((execute_sql_file w f).2).countP isCursorOpenEvent =
      ((execute_sql_file w f).2).countP isCursorCloseEvent := by
  obtain ⟨c, hc⟩ := Option.isSome_iff_exists.mp h
  cases hm : w.execResult c with
  | none =>
    rw [execute_sql_file_of_ok w f (by simp [fileExecOk, hc, hm])]
    constructor
    · rfl
    · simp [successTrace, isCursorOpenEvent, isCursorCloseEvent,
        List.countP_cons, List.countP_nil]
  | some m =>
    rw [execute_sql_file_of_fail w f c m hc hm]
    constructor
    · rfl
    · simp [failTrace, isCursorOpenEvent, isCursorCloseEvent,
        List.countP_cons, List.countP_nil]

/-- Claim C10 witness: in the world where `schema.sql` fails to execute, the
error path still closes the cursor last, with opens and closes balanced. -/
theorem C10_cursor_closed_witness :
    ((execute_sql_file badSqlWorld "schema.sql").2).getLast? =
      some (Event.cursorClose "schema.sql") ∧
    ((execute_sql_file badSqlWorld "schema.sql").2).countP isCursorOpenEvent =
      ((execute_sql_file badSqlWorld "schema.sql").2).countP isCursorCloseEvent :=
  C10_cursor_closed badSqlWorld "schema.sql" (by decide)

end DbSetup
